import Mathlib

/-!
Verification development for the business-idea-scorer repository.

The frontend components (`FileUploadComponent.tsx`, `IdeaScoresGrid.tsx`)
are embedded directly from the TypeScript source.  The backend scoring
pipeline (normalizer, criterion scorer, weighting aggregator, risk-flag
engine, explanation orchestrator) is not present in the source tree, so
those components are modelled from the specification, as marked on each
definition.
-/

/-! ## Frontend: `IdeaScoresGrid.tsx` -/

/-- The `BusinessIdea` interface of `IdeaScoresGrid.tsx` (lines 38-52),
embedded field for field.  `number` fields are modelled as `ℚ`, the
optional metric fields as `Option ℚ`. -/
structure BusinessIdea where
  id : String
  name : String
  industry : String
  business_model : String
  score : ℚ
  risk_flags : List String
  explanation : String
  file_id : String
  market_size_tam : Option ℚ
  competition_level : Option ℚ
  founding_team_experience : Option ℚ
  created_at : String
  updated_at : String
deriving DecidableEq

/-- The field names of the `BusinessIdea` interface in `IdeaScoresGrid.tsx`,
in declaration order. -/
def businessIdeaFields : List String :=
  ["id", "name", "industry", "business_model", "score", "risk_flags",
   "explanation", "file_id", "market_size_tam", "competition_level",
   "founding_team_experience", "created_at", "updated_at"]

/-- The field names of the `ScoredIdea` wire contract in section 3 of the
specification.  This definition follows the words of the spec, to be
compared with `businessIdeaFields`, which follows the source. -/
def scoredIdeaContractFields : List String :=
  ["id", "name", "industry", "business_model", "score", "criterion_scores",
   "risk_flags", "explanation", "explanation_status"]

/-- Decidable check that one character list occurs as a contiguous run at
the head of another, modelling the inner step of JavaScript
`String.prototype.includes`. -/
def charsStartWith : List Char → List Char → Bool
  | [], _ => true
  | _ :: _, [] => false
  | a :: as, b :: bs => a == b && charsStartWith as bs

/-- JavaScript `hay.includes(sub)`: `sub` occurs contiguously in `hay`. -/
def strIncludes (hay sub : String) : Bool :=
  go hay.toList sub.toList
where
  go : List Char → List Char → Bool
    | hay, sub =>
      charsStartWith sub hay ||
        match hay with
        | [] => false
        | _ :: t => go t sub

/-- JavaScript trim-to-empty test (s.trim() equal to the empty string): the string has no non-whitespace
character. -/
def strIsBlank (s : String) : Bool :=
  s.data.all Char.isWhitespace

/-- JavaScript `s.toLowerCase()`, embedded as character-wise lowering. -/
def strToLower (s : String) : String :=
  ⟨s.data.map Char.toLower⟩

/-- The search-filter effect of `IdeaScoresGrid.tsx` (lines 67-80): an
empty-after-trim search term leaves the idea list unchanged; otherwise
the list is filtered to the ideas whose lower-cased name, industry or
business model contains the lower-cased term. -/
def filterIdeas (searchTerm : String) (ideas : List BusinessIdea) :
    List BusinessIdea :=
  if strIsBlank searchTerm then ideas
  else
    let term := strToLower searchTerm
    ideas.filter fun idea =>
      strIncludes (strToLower idea.name) term ||
      strIncludes (strToLower idea.industry) term ||
      strIncludes (strToLower idea.business_model) term

/-- Severity palette used by the Material-UI color props in the grid. -/
inductive SeverityColor where
  | success
  | warning
  | error
deriving DecidableEq

/-- Score cell color of the grid (`IdeaScoresGrid.tsx` lines 150-159):
`color` starts as success, is set to error below 50 and to warning
below 75. -/
def cellScoreColor (score : ℚ) : SeverityColor :=
  if score < 50 then SeverityColor.error
  else if score < 75 then SeverityColor.warning
  else SeverityColor.success

/-- Details-dialog header color (`IdeaScoresGrid.tsx` lines 332-342):
success at 75 and above, warning at 50 and above, error otherwise. -/
def dialogScoreColor (score : ℚ) : SeverityColor :=
  if score ≥ 75 then SeverityColor.success
  else if score ≥ 50 then SeverityColor.warning
  else SeverityColor.error

/-! ## Frontend: `FileUploadComponent.tsx` -/

/-- The part of a browser `File` object inspected by `onDrop`:
its MIME type and its size in bytes. -/
structure FileDesc where
  name : String
  mime : String
  size : ℕ
deriving DecidableEq

/-- The component state touched by `onDrop`: the selected file, the error
message and the last upload response (kept abstract as its presence). -/
structure UploadState where
  file : Option FileDesc
  error : Option String
  success : Bool
deriving DecidableEq

/-- The `validFileTypes` array of `FileUploadComponent.tsx` (lines 52-56). -/
def validFileTypes : List String :=
  ["application/vnd.ms-excel",
   "application/vnd.openxmlformats-officedocument.spreadsheetml.sheet",
   "text/csv"]

/-- The `onDrop` callback of `FileUploadComponent.tsx` (lines 39-72): reset
error and success, ignore an empty drop, reject a file whose MIME type is
not in `validFileTypes` or whose size exceeds 10 MiB (setting an error
message), and otherwise store the file as selected. -/
def onDrop (st : UploadState) (acceptedFiles : List FileDesc) : UploadState :=
  let st0 : UploadState := { st with error := none, success := false }
  match acceptedFiles with
  | [] => st0
  | selectedFile :: _ =>
    if !(validFileTypes.contains selectedFile.mime) then
      { st0 with
        error := some "Please upload a valid Excel (.xlsx, .xls) or CSV (.csv) file" }
    else if selectedFile.size > 10 * 1024 * 1024 then
      { st0 with error := some "File size exceeds 10MB limit" }
    else
      { st0 with file := some selectedFile }

/-! ## Backend data model (modelled from the spec)

The backend of this repository (normalizer, criterion scorer, weighting
aggregator, risk-flag engine, explanation orchestrator, pipeline) is not
in the source tree; only its configuration (`.env.example`), dependency
list and docker-compose file are.  The definitions below are therefore
modelled from the specification. -/

/-- Modelled from the spec: the `business_model` enumeration of a
`NormalizedIdea` (section 3); the backend source is missing. -/
inductive BusinessModel where
  | B2B
  | B2C
  | B2B2C
  | MARKETPLACE
  | PLATFORM
  | OTHER
deriving DecidableEq

/-- Modelled from the spec: a `NormalizedIdea` (section 3) after
normalization, when every numeric field has a parsed or imputed value;
the backend source is missing. -/
structure NormalizedIdea where
  id : String
  name : String
  industry : String
  business_model : BusinessModel
  market_size_tam : ℚ
  competition_level : ℚ
  founding_team_experience : ℚ
deriving DecidableEq

/-- Modelled from the spec: `CriterionScores`, a mapping from criterion
name to a sub-score (section 3); the backend source is missing. -/
def CriterionScores : Type := String → ℚ

/-- Modelled from the spec: `WeightConfig`, a mapping from criterion name
to a weight, carried as an association list (section 3); the backend
source is missing. -/
def WeightConfig : Type := List (String × ℚ)

/-- Modelled from the spec: the error raised on an invalid weight
configuration (section 7); the backend source is missing. -/
inductive ConfigError where
  | invalidWeightSum
deriving DecidableEq

/-- The sum of the weights of a `WeightConfig`. -/
def weightSum (weights : WeightConfig) : ℚ :=
  (weights.map Prod.snd).sum

/-- Modelled from the spec: weight validation at pipeline construction
(sections 4.3, 6, 7) — the weights must sum to exactly 100, otherwise
construction fails with `ConfigError`; the backend source is missing. -/
def validateWeights (weights : WeightConfig) : Except ConfigError Unit :=
  if weightSum weights = 100 then Except.ok () else
    Except.error ConfigError.invalidWeightSum

/-- The default weight configuration shipped in `.env.example`
(`src/unnamed/part_002`, lines 17-23). -/
def defaultWeights : WeightConfig :=
  [("market_business_model", 35),
   ("competitive_landscape", 15),
   ("execution_team", 20),
   ("risk_factors", 10),
   ("network_platform_risks", 10),
   ("social_environmental_impact", 10)]

/-! ## Weighting aggregator (modelled from the spec) -/

/-- Round-half-to-even on the rationals: a value whose fractional part is
below one half rounds down, above one half rounds up, and exactly one
half rounds to the even neighbour. -/
def roundHalfEven (q : ℚ) : ℤ :=
  let f : ℤ := ⌊q⌋
  let r : ℚ := q - f
  if r < 1 / 2 then f
  else if 1 / 2 < r then f + 1
  else if Even f then f else f + 1

/-- Modelled from the spec: the weighting aggregator (section 4.3),
`aggregate(scores, weights) = round(Σ weight_i/100 × score_i)` over every
criterion present in `weights`, with round-half-to-even; the backend
source is missing. -/
def aggregate (scores : CriterionScores) (weights : WeightConfig) : ℤ :=
  roundHalfEven ((weights.map fun p => p.2 / 100 * scores p.1).sum)

/-- The sub-scores of the worked example in section 8 of the
specification: market 80, team 60, risk 90, other criteria 0. -/
def exampleScores : CriterionScores := fun name =>
  if name = "market" then 80
  else if name = "team" then 60
  else if name = "risk" then 90
  else 0

/-- The weight configuration of the worked example in section 8 of the
specification. -/
def exampleWeights : WeightConfig :=
  [("market", 50), ("team", 30), ("risk", 20)]

/-! ## Record normalizer imputation (modelled from the spec) -/

/-- The median of a list of rationals: the middle element of the sorted
list when the length is odd, the mean of the two middle elements when it
is even, and 0 on the empty list. -/
def median (l : List ℚ) : ℚ :=
  let sorted := l.mergeSort (fun a b => a ≤ b)
  let n := l.length
  if n = 0 then 0
  else if n % 2 = 1 then sorted.getD (n / 2) 0
  else (sorted.getD (n / 2 - 1) 0 + sorted.getD (n / 2) 0) / 2

/-- Modelled from the spec: batch-wide imputation of one numeric field
(section 4.1) — each missing value becomes the median of the non-missing
values of that field in the batch, computed once over the whole batch,
or the fixed neutral default of the field when every value is missing; the
backend source is missing. -/
def imputeField (neutralDefault : ℚ) (batch : List (Option ℚ)) : List ℚ :=
  let present := batch.filterMap id
  let fill := if present.isEmpty then neutralDefault else median present
  batch.map fun v => v.getD fill

/-! ## Explanation orchestrator (modelled from the spec) -/

/-- Modelled from the spec: the `explanation_status` enumeration of a
`ScoredIdea` (section 3); the backend source is missing. -/
inductive ExplStatus where
  | OK
  | DEGRADED
  | PENDING
deriving DecidableEq

/-- Modelled from the spec: the retry loop of the explanation orchestrator
for one idea (sections 4.5, 7) — the sequence of per-attempt outcomes is
scanned for the first success; if every attempt failed the idea degrades
to a `null` explanation with status `DEGRADED`; the backend source is
missing. -/
def explainOne (attempts : List (Option String)) : Option String × ExplStatus :=
  match attempts.findSome? id with
  | some text => (some text, ExplStatus.OK)
  | none => (none, ExplStatus.DEGRADED)

/-- Modelled from the spec: the batch-level explanation call (section 4.5)
— every idea of the batch gets a result, the exhausted retries of one idea
never failing the batch; the backend source is missing. -/
def explainBatch (batch : List (List (Option String))) :
    List (Option String × ExplStatus) :=
  batch.map explainOne

/-- State of the process-lifetime explanation cache: resolved
fingerprint-to-text entries plus the number of external generation
requests issued so far. -/
structure CacheState where
  cache : List (String × String)
  calls : ℕ
deriving DecidableEq

/-- Lookup of a fingerprint in the cache association list. -/
def cacheLookup (entries : List (String × String)) (fp : String) :
    Option String :=
  match entries with
  | [] => none
  | (k, v) :: rest => if k = fp then some v else cacheLookup rest fp

/-- Modelled from the spec: one `explain` invocation for a fingerprint
under idempotent caching (section 4.5) — a fingerprint already resolved
within the process lifetime is served from the cache with no new
request; otherwise one external generation request is issued and its
text cached; the backend source is missing. -/
def explainFingerprint (svc : String → String) (st : CacheState)
    (fp : String) : String × CacheState :=
  match cacheLookup st.cache fp with
  | some text => (text, st)
  | none =>
    let text := svc fp
    (text, ⟨(fp, text) :: st.cache, st.calls + 1⟩)

/-! ## Risk flag engine (modelled from the spec) -/

/-- Modelled from the spec: the risk-flag engine (section 4.4) — a
registry of independently evaluable named predicates over the normalized
idea and its sub-scores, producing the set of names of the predicates
that hold; the backend source is missing. -/
def evaluateFlags
    (registry : List (String × (NormalizedIdea → CriterionScores → Bool)))
    (idea : NormalizedIdea) (scores : CriterionScores) : Finset String :=
  ((registry.filter fun p => p.2 idea scores).map Prod.fst).toFinset

/-! ## Sample data used by witnesses -/

/-- A sample grid row used by concrete witnesses. -/
def sampleBusinessIdea : BusinessIdea :=
  { id := "1", name := "Acme Robotics", industry := "Tech",
    business_model := "B2B", score := 80, risk_flags := [],
    explanation := "solid", file_id := "f1", market_size_tam := some 10,
    competition_level := some 3, founding_team_experience := some 7,
    created_at := "2024-01-01", updated_at := "2024-01-02" }

/-- A sample normalized idea used by concrete witnesses. -/
def sampleIdea : NormalizedIdea :=
  { id := "1", name := "Acme Robotics", industry := "Tech",
    business_model := BusinessModel.B2B, market_size_tam := 10,
    competition_level := 3, founding_team_experience := 7 }

/-- A sample criterion-score mapping used by concrete witnesses. -/
def sampleScores : CriterionScores := fun _ => 50

/-! ## Theorems -/

/-- C10: the severity classification of the score cell of the grid (error below
50, warning from 50 up to but excluding 75, success from 75 on) agrees with
the independently coded classification of the details-dialog header at
every score value. -/
theorem cellScoreColor_eq_dialogScoreColor :
    ∀ score : ℚ, cellScoreColor score = dialogScoreColor score := by
  intro score
  unfold cellScoreColor dialogScoreColor
  split_ifs <;> first | rfl | linarith

/-- C7 (counterexample): the record type consumed by the presentation grid
(`BusinessIdea` in `IdeaScoresGrid.tsx`) does not carry the section-3 wire
contract: it has neither an `explanation_status` field nor a
`criterion_scores` field. -/
theorem businessIdea_missing_contract_fields :
    (businessIdeaFields.contains "explanation_status"
      || businessIdeaFields.contains "criterion_scores") = false := by
  decide

/-- C7 (amended): the `BusinessIdea` record of the grid carries the contract
fields id, name, industry, business_model, score, risk_flags and
explanation, but lacks `explanation_status` and `criterion_scores`, so the
section-3 wire contract is not a subset of what the grid consumes; the grid
additionally relies on `file_id`, optional metric fields and timestamps. -/
theorem businessIdea_vs_contract :
    scoredIdeaContractFields.all
      (fun f => businessIdeaFields.contains f
        || f == "explanation_status" || f == "criterion_scores") = true ∧
    businessIdeaFields.contains "explanation_status" = false ∧
    businessIdeaFields.contains "criterion_scores" = false ∧
    scoredIdeaContractFields.all
      (fun f => businessIdeaFields.contains f) = false ∧
    businessIdeaFields.contains "file_id" = true ∧
    businessIdeaFields.contains "created_at" = true ∧
    businessIdeaFields.contains "updated_at" = true := by
  decide

/-- C8: dropping a single file stores it as the selected file exactly when
its MIME type is one of the three accepted spreadsheet/CSV types and its
size is at most 10*1024*1024 bytes; otherwise an error message is set and
the selected-file state stays null. -/
theorem onDrop_accepts_iff :
    ∀ (st : UploadState) (f : FileDesc), st.file = none →
      ((onDrop st [f]).file = some f ↔
        validFileTypes.contains f.mime = true ∧
          f.size ≤ 10 * 1024 * 1024) ∧
      (¬ (validFileTypes.contains f.mime = true ∧
            f.size ≤ 10 * 1024 * 1024) →
        (onDrop st [f]).file = none ∧
          (onDrop st [f]).error.isSome = true) := by
  intro st f hfile
  by_cases hm : f.mime ∈ validFileTypes
  · by_cases hs : f.size ≤ 10 * 1024 * 1024
    · simp [onDrop, hm, hs, Nat.not_lt.mpr hs]
    · have hgt : f.size > 10 * 1024 * 1024 := Nat.lt_of_not_le hs
      simp [onDrop, hm, hs, hgt, hfile]
  · simp [onDrop, hm, hfile]

/-- Concrete check of C8: a small CSV file is accepted, an oversized CSV
file is rejected with an error and no selected file. -/
theorem onDrop_accepts_iff_witness :
    (onDrop ⟨none, none, false⟩ [⟨"a.csv", "text/csv", 100⟩]).file =
      some ⟨"a.csv", "text/csv", 100⟩ ∧
    (onDrop ⟨none, none, false⟩
        [⟨"b.csv", "text/csv", 10 * 1024 * 1024 + 1⟩]).file = none ∧
    (onDrop ⟨none, none, false⟩
        [⟨"b.csv", "text/csv", 10 * 1024 * 1024 + 1⟩]).error.isSome =
      true := by
  refine ⟨((onDrop_accepts_iff ⟨none, none, false⟩ ⟨"a.csv", "text/csv", 100⟩
    rfl).1).mpr ⟨by decide, by norm_num⟩, ?_, ?_⟩
  · exact ((onDrop_accepts_iff ⟨none, none, false⟩
      ⟨"b.csv", "text/csv", 10 * 1024 * 1024 + 1⟩ rfl).2
      (by intro h; exact absurd h.2 (by norm_num))).1
  · exact ((onDrop_accepts_iff ⟨none, none, false⟩
      ⟨"b.csv", "text/csv", 10 * 1024 * 1024 + 1⟩ rfl).2
      (by intro h; exact absurd h.2 (by norm_num))).2

/-- C9: with an empty-after-trim search term the filtered list is the full
idea list; with a non-trivial term an idea is kept exactly when the
lower-cased term occurs in its lower-cased name, industry or business
model; and the filtered list is always a subsequence of the input list. -/
theorem filterIdeas_search :
    ∀ (term : String) (ideas : List BusinessIdea),
      (strIsBlank term = true → filterIdeas term ideas = ideas) ∧
      (strIsBlank term = false → ∀ idea,
        idea ∈ filterIdeas term ideas ↔
          idea ∈ ideas ∧
            (strIncludes (strToLower idea.name) (strToLower term) ||
             strIncludes (strToLower idea.industry) (strToLower term) ||
             strIncludes (strToLower idea.business_model)
               (strToLower term)) = true) ∧
      (filterIdeas term ideas).Sublist ideas := by
  intro term ideas
  refine ⟨fun h => by simp [filterIdeas, h], fun h idea => ?_, ?_⟩
  · simp [filterIdeas, h, List.mem_filter]
  · by_cases h : strIsBlank term
    · simp [filterIdeas, h, List.Sublist.refl]
    · simp only [filterIdeas, h, Bool.false_eq_true, if_false]
      exact List.filter_sublist _

/-- Concrete check of C9: the empty term keeps the sample row, and the term
"ACME" (matching case-insensitively) keeps it too. -/
theorem filterIdeas_search_witness :
    filterIdeas "" [sampleBusinessIdea] = [sampleBusinessIdea] ∧
    sampleBusinessIdea ∈ filterIdeas "ACME" [sampleBusinessIdea] := by
  refine ⟨(filterIdeas_search "" [sampleBusinessIdea]).1 (by decide), ?_⟩
  exact ((filterIdeas_search "ACME" [sampleBusinessIdea]).2.1 (by decide)
    sampleBusinessIdea).mpr ⟨by decide, by decide⟩

/-- C2: weight validation succeeds exactly when the weights sum to 100 and
fails with `ConfigError` on every other configuration, and the default
configuration of `.env.example` (35+15+20+10+10+10) passes it. -/
theorem validateWeights_sum_100 :
    (∀ weights : WeightConfig,
      validateWeights weights = Except.ok () ↔ weightSum weights = 100) ∧
    (∀ weights : WeightConfig, weightSum weights ≠ 100 →
      validateWeights weights =
        Except.error ConfigError.invalidWeightSum) ∧
    weightSum defaultWeights = 100 ∧
    validateWeights defaultWeights = Except.ok () := by
  refine ⟨fun weights => ?_, fun weights h => ?_, ?_, ?_⟩
  · unfold validateWeights
    split_ifs with h
    · simp [h]
    · simp [h]
  · simp [validateWeights, h]
  · norm_num [weightSum, defaultWeights]
  · norm_num [validateWeights, weightSum, defaultWeights]

/-- Concrete check of C2: a configuration whose weights sum to 50 is
rejected at construction, and the default configuration is accepted. -/
theorem validateWeights_sum_100_witness :
    validateWeights [("market", 50)] =
      Except.error ConfigError.invalidWeightSum ∧
    validateWeights defaultWeights = Except.ok () :=
  ⟨validateWeights_sum_100.2.1 [("market", 50)]
    (by norm_num [weightSum]),
   validateWeights_sum_100.2.2.2⟩

/-- C1: the aggregator equals the round-half-to-even rounding of the
weighted sum Σ weight_i/100 × score_i over the criteria present in the
weight configuration; the rounding sends a value exactly halfway between
two integers to the even one; and on the worked example (weights market 50,
team 30, risk 20; sub-scores market 80, team 60, risk 90) the aggregate
is 76. -/
theorem aggregate_weighted_round_half_even :
    (∀ (scores : CriterionScores) (weights : WeightConfig),
      aggregate scores weights =
        roundHalfEven ((weights.map fun p => p.2 / 100 * scores p.1).sum)) ∧
    (∀ n : ℤ,
      roundHalfEven ((n : ℚ) + 1 / 2) = if Even n then n else n + 1) ∧
    aggregate exampleScores exampleWeights = 76 := by
  refine ⟨fun scores weights => rfl, fun n => ?_, ?_⟩
  · have hf : ⌊(n : ℚ) + 1 / 2⌋ = n := by
      rw [Int.floor_int_add]
      norm_num
    simp only [roundHalfEven, hf]
    have hr : ((n : ℚ) + 1 / 2) - (n : ℤ) = 1 / 2 := by ring
    rw [hr]
    norm_num
  · simp only [aggregate, exampleScores, exampleWeights, String.reduceEq,
      reduceIte, List.map_cons, List.map_nil, List.sum_cons, List.sum_nil]
    norm_num [roundHalfEven]

/-- C3: batch-wide imputation fills each missing value of a numeric field
with the median of the non-missing values of that field in the batch
(computed once from the whole batch), keeps present values unchanged, uses
the fixed neutral default of the field when every value is missing, and on the
worked example a record missing the field in a batch reporting 10, 20, 30
receives 20. -/
theorem imputeField_median :
    (∀ (d : ℚ) (batch : List (Option ℚ)) (i : ℕ),
      batch[i]? = some none →
      (imputeField d batch)[i]? =
        some (if (batch.filterMap id).isEmpty then d
          else median (batch.filterMap id))) ∧
    (∀ (d : ℚ) (batch : List (Option ℚ)) (i : ℕ) (v : ℚ),
      batch[i]? = some (some v) →
      (imputeField d batch)[i]? = some v) ∧
    imputeField 0 [none, some 10, some 20, some 30] = [20, 10, 20, 30] ∧
    median [10, 20, 30] = 20 := by
  refine ⟨fun d batch i h => ?_, fun d batch i v h => ?_, ?_, ?_⟩
  · simp [imputeField, List.getElem?_map, h]
  · simp [imputeField, List.getElem?_map, h]
  · norm_num [imputeField, median, List.mergeSort, List.filterMap]
  · norm_num [median, List.mergeSort]

/-- Concrete check of C3: in the batch [none, 10, 20, 30] the missing entry
is filled with 20 and the present entry 10 is kept. -/
theorem imputeField_median_witness :
    (imputeField 0 [none, some 10, some 20, some 30])[0]? = some 20 ∧
    (imputeField 0 [none, some 10, some 20, some 30])[1]? = some 10 := by
  constructor
  · have h := imputeField_median.1 0 [none, some 10, some 20, some 30] 0 rfl
    rw [h]
    norm_num [median, List.mergeSort, List.filterMap]
  · exact imputeField_median.2.1 0 [none, some 10, some 20, some 30] 1 10 rfl

/-- Scanning a list of all-failed attempt outcomes finds no success. -/
theorem findSome?_id_eq_none_of_all_none {attempts : List (Option String)}
    (h : ∀ a ∈ attempts, a = none) : attempts.findSome? id = none := by
  induction attempts with
  | nil => rfl
  | cons a t ih =>
    have ha : a = none := h a (List.mem_cons_self a t)
    simp [List.findSome?_cons, ha,
      ih fun x hx => h x (List.mem_cons_of_mem a hx)]

/-- C4: the batch explanation call returns a result for every idea of the
batch (it never fails as a whole); an idea whose every attempt failed gets
a null explanation with status DEGRADED; and an idea with a successful
attempt gets that text with status OK, independently of the other ideas. -/
theorem explainBatch_degrades :
    (∀ batch : List (List (Option String)),
      (explainBatch batch).length = batch.length) ∧
    (∀ (batch : List (List (Option String))) (i : ℕ)
        (attempts : List (Option String)),
      batch[i]? = some attempts →
      (∀ a ∈ attempts, a = none) →
      (explainBatch batch)[i]? = some (none, ExplStatus.DEGRADED)) ∧
    (∀ (batch : List (List (Option String))) (j : ℕ)
        (attempts : List (Option String)) (t : String),
      batch[j]? = some attempts →
      attempts.findSome? id = some t →
      (explainBatch batch)[j]? = some (some t, ExplStatus.OK)) := by
  refine ⟨fun batch => ?_, fun batch i attempts hb hall => ?_,
    fun batch j attempts t hb hfind => ?_⟩
  · simp [explainBatch]
  · simp [explainBatch, List.getElem?_map, hb, explainOne,
      findSome?_id_eq_none_of_all_none hall]
  · simp [explainBatch, List.getElem?_map, hb, explainOne, hfind]

/-- Concrete check of C4: in a two-idea batch where every attempt for the
first idea fails and the second succeeds, the first degrades to a null
explanation and the second still reaches OK. -/
theorem explainBatch_degrades_witness :
    (explainBatch [[none, none, none], [some "fine"]])[0]? =
      some (none, ExplStatus.DEGRADED) ∧
    (explainBatch [[none, none, none], [some "fine"]])[1]? =
      some (some "fine", ExplStatus.OK) ∧
    (explainBatch [[none, none, none], [some "fine"]]).length = 2 :=
  ⟨explainBatch_degrades.2.1 [[none, none, none], [some "fine"]] 0
    [none, none, none] rfl (by decide),
   explainBatch_degrades.2.2 [[none, none, none], [some "fine"]] 1
    [some "fine"] "fine" rfl rfl,
   explainBatch_degrades.1 [[none, none, none], [some "fine"]]⟩

/-- C5: issuing explain twice for the same fingerprint yields identical
explanation text, the second invocation changes nothing (in particular it
issues no external request), and a fingerprint not yet resolved in the
process lifetime causes exactly one external generation request. -/
theorem explainFingerprint_idempotent :
    ∀ (svc : String → String) (st : CacheState) (fp : String),
      (explainFingerprint svc (explainFingerprint svc st fp).2 fp).1 =
        (explainFingerprint svc st fp).1 ∧
      (explainFingerprint svc (explainFingerprint svc st fp).2 fp).2 =
        (explainFingerprint svc st fp).2 ∧
      (cacheLookup st.cache fp = none →
        (explainFingerprint svc st fp).2.calls = st.calls + 1) := by
  intro svc st fp
  cases h : cacheLookup st.cache fp with
  | some text =>
    refine ⟨?_, ?_, fun hnone => by simp_all⟩ <;>
      simp [explainFingerprint, h]
  | none =>
    have hsnd : (explainFingerprint svc st fp).2 =
        ⟨(fp, svc fp) :: st.cache, st.calls + 1⟩ := by
      simp [explainFingerprint, h]
    have hlook : cacheLookup ((fp, svc fp) :: st.cache) fp =
        some (svc fp) := by
      simp [cacheLookup]
    refine ⟨?_, ?_, fun _ => by rw [hsnd]⟩
    · rw [hsnd]
      simp [explainFingerprint, hlook, h]
    · rw [hsnd]
      simp [explainFingerprint, hlook, h, hsnd]

/-- Concrete check of C5: starting from an empty cache, two explain calls
for fingerprint "fp" return the same text, the second changes no state,
and exactly one external request is counted. -/
theorem explainFingerprint_idempotent_witness :
    (explainFingerprint (fun _ => "generated")
        (explainFingerprint (fun _ => "generated") ⟨[], 0⟩ "fp").2 "fp").1 =
      (explainFingerprint (fun _ => "generated") ⟨[], 0⟩ "fp").1 ∧
    (explainFingerprint (fun _ => "generated")
        (explainFingerprint (fun _ => "generated") ⟨[], 0⟩ "fp").2 "fp").2 =
      (explainFingerprint (fun _ => "generated") ⟨[], 0⟩ "fp").2 ∧
    (explainFingerprint (fun _ => "generated") ⟨[], 0⟩ "fp").2.calls =
      0 + 1 :=
  ⟨(explainFingerprint_idempotent (fun _ => "generated") ⟨[], 0⟩ "fp").1,
   (explainFingerprint_idempotent (fun _ => "generated") ⟨[], 0⟩ "fp").2.1,
   (explainFingerprint_idempotent (fun _ => "generated") ⟨[], 0⟩ "fp").2.2
     rfl⟩

/-- C6: risk-flag evaluation is order-independent — permuting the order of
the predicate registry leaves the resulting set of flags unchanged, for
every normalized idea and criterion-score mapping. -/
theorem evaluateFlags_order_independent :
    ∀ (r1 r2 : List (String × (NormalizedIdea → CriterionScores → Bool))),
      r1.Perm r2 →
      ∀ (idea : NormalizedIdea) (scores : CriterionScores),
        evaluateFlags r1 idea scores = evaluateFlags r2 idea scores := by
  intro r1 r2 h idea scores
  unfold evaluateFlags
  exact List.toFinset_eq_of_perm _ _ ((h.filter _).map _)

/-- Concrete check of C6: swapping two registry entries does not change
the evaluated flag set on the sample idea. -/
theorem evaluateFlags_order_independent_witness :
    evaluateFlags
        [("NETWORK_EFFECT_RISK", fun _ _ => true),
         ("REGULATORY_BARRIER", fun _ _ => false)] sampleIdea sampleScores =
      evaluateFlags
        [("REGULATORY_BARRIER", fun _ _ => false),
         ("NETWORK_EFFECT_RISK", fun _ _ => true)] sampleIdea sampleScores :=
  evaluateFlags_order_independent _ _
    (List.Perm.swap _ _ _) sampleIdea sampleScores

/-- Concrete check of C1: on the worked example the aggregate is 76. -/
theorem aggregate_weighted_round_half_even_witness :
    aggregate exampleScores exampleWeights = 76 :=
  aggregate_weighted_round_half_even.2.2

/-- Concrete check of C10: both classifications agree at score 80. -/
theorem cellScoreColor_eq_dialogScoreColor_witness :
    cellScoreColor 80 = dialogScoreColor 80 :=
  cellScoreColor_eq_dialogScoreColor 80
